import Mathlib

/-!
Verification development for the `react-native-background-guardian` library.

The Android native module (`BackgroundGuardianModule`, Kotlin) is shallowly
embedded below.  Each public method becomes a Lean function over an explicit
module state (the single `wakeLock` reference) plus an environment record
describing the outcomes of the OS calls the method performs (PowerManager
availability, `isHeld` query answers, whether a given OS call throws, which
settings activities launch, ...).  The iOS implementation
(`BackgroundGuardian.mm`) is a family of constants, embedded verbatim.
-/

/-- Outcome of a fallible OS call: a returned value or a thrown exception
(the Kotlin code catches `Exception` at the operation boundary). -/
inductive OsCall (α : Type) : Type where
  | ok (a : α)
  | exn
deriving DecidableEq, Repr

/-- The wake-lock handle recorded by the module: the embedding keeps the tag
that `PowerManager.newWakeLock` was given (claim-relevant attribute). -/
structure WakeLock where
  tag : String
deriving DecidableEq, Repr

/-- The module's mutable state: the single
`private var wakeLock: PowerManager.WakeLock?` field. -/
structure ModuleState where
  wakeLock : Option WakeLock
deriving DecidableEq, Repr

/-- `WAKE_LOCK_TAG` companion-object constant. -/
def WAKE_LOCK_TAG : String := "BackgroundGuardian:WakeLock"

/-- `val wakeLockTag = if (tag.isNotEmpty()) "$WAKE_LOCK_TAG:$tag" else WAKE_LOCK_TAG`. -/
def wakeLockTagFor (tag : String) : String :=
  if tag ≠ "" then WAKE_LOCK_TAG ++ ":" ++ tag else WAKE_LOCK_TAG

/-- OS behavior during one `acquireWakeLock` call.  `isHeld` is the answer of
`wakeLock.isHeld` on the recorded handle (consulted only when one is
recorded); `powerManagerAvailable` is whether
`getSystemService(POWER_SERVICE)` yields a `PowerManager`; `acquireThrows`
is whether `acquire(timeout)` throws inside the `apply` block. -/
structure AcquireEnv where
  isHeld : Bool
  powerManagerAvailable : Bool
  acquireThrows : Bool
deriving DecidableEq, Repr

/-- Result of one `acquireWakeLock` call: the resolved boolean, the module
state after the call, and whether the call reached
`powerManager.newWakeLock` (i.e. created a fresh OS wake-lock object). -/
structure AcquireResult where
  ret : Bool
  state : ModuleState
  newLockCreated : Bool
deriving DecidableEq, Repr

/-- The fresh-acquisition path of `acquireWakeLock` (reached when no handle is
recorded, or the recorded one reports `isHeld == false`): null-check the
PowerManager, then
`wakeLock = powerManager.newWakeLock(PARTIAL_WAKE_LOCK, wakeLockTag).apply { acquire(timeout.toLong()) }`.
If `acquire` throws, the assignment to `wakeLock` never executes (the right
hand side threw before the assignment), and the `catch` resolves `false`
leaving the previous state in place. -/
def acquireFresh (s : ModuleState) (tag : String) (env : AcquireEnv) : AcquireResult :=
  if env.powerManagerAvailable = false then
    { ret := false, state := s, newLockCreated := false }
  else if env.acquireThrows then
    { ret := false, state := s, newLockCreated := true }
  else
    { ret := true, state := { wakeLock := some { tag := wakeLockTagFor tag } },
      newLockCreated := true }

/-- `acquireWakeLock(tag, timeout, promise)` from the current Android module
(src/unnamed/part_001, lines 56-92).  The `timeout` argument is forwarded to
`acquire(timeout.toLong())` and does not influence the recorded state. -/
def acquireWakeLock (s : ModuleState) (tag : String) (timeout : Int)
    (env : AcquireEnv) : AcquireResult :=
  match s.wakeLock with
  | some _ =>
      if env.isHeld then
        { ret := true, state := s, newLockCreated := false }
      else
        acquireFresh s tag env
  | none => acquireFresh s tag env

/-- OS behavior during one `releaseWakeLock` call: `isHeld` is the answer of
`currentWakeLock.isHeld`; `releaseThrows` is whether
`currentWakeLock.release()` throws. -/
structure ReleaseEnv where
  isHeld : Bool
  releaseThrows : Bool
deriving DecidableEq, Repr

/-- Result of one `releaseWakeLock` call: the resolved boolean, the module
state after the call, and whether `currentWakeLock.release()` (the only OS
call of the method that can throw) was invoked. -/
structure ReleaseResult where
  ret : Bool
  state : ModuleState
  osReleaseCalled : Bool
deriving DecidableEq, Repr

/-- `releaseWakeLock(promise)` from the current Android module
(src/unnamed/part_001, lines 105-133). -/
def releaseWakeLock (s : ModuleState) (env : ReleaseEnv) : ReleaseResult :=
  match s.wakeLock with
  | none => { ret := true, state := s, osReleaseCalled := false }
  | some _ =>
      if env.isHeld = false then
        { ret := true, state := { wakeLock := none }, osReleaseCalled := false }
      else if env.releaseThrows then
        { ret := false, state := { wakeLock := none }, osReleaseCalled := true }
      else
        { ret := true, state := { wakeLock := none }, osReleaseCalled := true }

/-- OS behavior during one `isWakeLockHeld` call: `isHeld` is the answer of
`wakeLock?.isHeld` when a handle is recorded; `queryThrows` is whether that
query throws (the `catch` resolves `false`). -/
structure HeldEnv where
  isHeld : Bool
  queryThrows : Bool
deriving DecidableEq, Repr

/-- `isWakeLockHeld(promise)` from the current Android module
(src/unnamed/part_001, lines 140-149): `wakeLock?.isHeld == true`, with any
exception collapsing to `false`. -/
def isWakeLockHeld (s : ModuleState) (env : HeldEnv) : Bool :=
  match s.wakeLock with
  | none => false
  | some _ => if env.queryThrows then false else env.isHeld

/-- Runs a list of `acquireWakeLock` calls (tag, timeout, per-call OS
environment) from a starting state, collecting every per-call result. -/
def runAcquires (s : ModuleState) :
    List (String × Int × AcquireEnv) → ModuleState × List AcquireResult
  | [] => (s, [])
  | (tag, timeout, env) :: rest =>
      let r := acquireWakeLock s tag timeout env
      let p := runAcquires r.state rest
      (p.1, r :: p.2)

/-- One character of Kotlin `String.lowercase()` restricted to its basic-latin
effect, which is all the manufacturer keys of the module exercise: the core
`Char.toLower` maps `A`..`Z` to `a`..`z` and leaves everything else. -/
def charToLower (c : Char) : Char := Char.toLower c

/-- `String.lowercase()` as used on `Build.MANUFACTURER`, modelled per
character over the string's character list. -/
def lowercaseStr (s : String) : String := String.mk (s.data.map charToLower)

/-- One character of Kotlin's `isBlank` whitespace test (space, tab, newline,
carriage return — the forms a manufacturer string could carry). -/
def isWhitespaceChar (c : Char) : Bool :=
  c.toNat = 32 || c.toNat = 9 || c.toNat = 10 || c.toNat = 13

/-- Kotlin `String.isBlank()`: every character is whitespace (true on the
empty string, matching `isNullOrBlank` on a non-null receiver). -/
def isBlankStr (s : String) : Bool := s.data.all isWhitespaceChar

/-- OS behavior during one `getDeviceManufacturer` call: `value` is
`Build.MANUFACTURER` (possibly null), `readThrows` is whether reading it
throws (the `catch` resolves null). -/
structure ManufacturerEnv where
  value : Option String
  readThrows : Bool
deriving DecidableEq, Repr

/-- `getDeviceManufacturer(promise)` from the current Android module
(src/unnamed/part_001, lines 802-818): null-or-blank collapses to null,
otherwise the lowercased manufacturer is resolved. -/
def getDeviceManufacturer (env : ManufacturerEnv) : Option String :=
  if env.readThrows then none
  else
    match env.value with
    | none => none
    | some m => if isBlankStr m then none else some (lowercaseStr m)

/-- OS behavior during one `isIgnoringBatteryOptimizations` call. `sdkInt` is
`Build.VERSION.SDK_INT`; `queryResult` is the outcome of
`powerManager.isIgnoringBatteryOptimizations(packageName)` (on OS versions
predating the feature — API below 23 — that call cannot succeed, so a
faithful environment there carries `OsCall.exn`). -/
structure BatteryEnv where
  sdkInt : Nat
  powerManagerAvailable : Bool
  queryResult : OsCall Bool
deriving DecidableEq, Repr

/-- `isIgnoringBatteryOptimizations(promise)` from the CURRENT Android module
(src/unnamed/part_001, lines 225-244).  Despite its own KDoc stating
"API < 23: Returns true", this revision never consults `sdkInt`: the
PowerManager query runs unconditionally and every failure resolves
`false`. -/
def isIgnoringBatteryOptimizations (env : BatteryEnv) : Bool :=
  if env.powerManagerAvailable = false then false
  else
    match env.queryResult with
    | OsCall.ok b => b
    | OsCall.exn => false

/-- `isIgnoringBatteryOptimizations(promise)` from the EARLIER module revision
(src/unnamed/part_003, lines 143-169), which still guards
`Build.VERSION.SDK_INT < Build.VERSION_CODES.M` and resolves `true` on OS
versions below API 23, matching the KDoc both revisions carry. -/
def isIgnoringBatteryOptimizationsLegacy (env : BatteryEnv) : Bool :=
  if env.sdkInt < 23 then true
  else if env.powerManagerAvailable = false then false
  else
    match env.queryResult with
    | OsCall.ok b => b
    | OsCall.exn => false

/-- OS behavior during one `requestBatteryOptimizationExemption` call.
`statusQuery` is the outcome of the already-exempt check
`powerManager?.isIgnoringBatteryOptimizations(packageName)` (consulted when
the PowerManager exists); `resolvable` is whether
`intent.resolveActivity(packageManager)` is non-null; `startThrows` is
whether `startActivity` throws (SecurityException or any other). -/
structure ExemptEnv where
  powerManagerAvailable : Bool
  statusQuery : OsCall Bool
  resolvable : Bool
  startThrows : Bool
deriving DecidableEq, Repr

/-- Result of one `requestBatteryOptimizationExemption` call: the resolved
boolean, whether the code attempted to resolve the exemption intent, and
whether it attempted to launch the dialog. -/
structure ExemptResult where
  ret : Bool
  resolveAttempted : Bool
  launchAttempted : Bool
deriving DecidableEq, Repr

/-- The resolve-and-launch tail of `requestBatteryOptimizationExemption`:
verify the intent resolves, then `startActivity`; a throw is caught and
resolves `false`.  The promise is resolved as soon as the launch attempt
completes — no user response exists anywhere in the control flow. -/
def requestExemptionLaunch (env : ExemptEnv) : ExemptResult :=
  if env.resolvable = false then
    { ret := false, resolveAttempted := true, launchAttempted := false }
  else if env.startThrows then
    { ret := false, resolveAttempted := true, launchAttempted := true }
  else
    { ret := true, resolveAttempted := true, launchAttempted := true }

/-- `requestBatteryOptimizationExemption(promise)` from the current Android
module (src/unnamed/part_001, lines 266-311).  A null PowerManager makes the
`== true` guard false (the code then proceeds to the dialog); a throwing
status query is caught by the outer handler and resolves `false`. -/
def requestBatteryOptimizationExemption (env : ExemptEnv) : ExemptResult :=
  if env.powerManagerAvailable then
    match env.statusQuery with
    | OsCall.exn => { ret := false, resolveAttempted := false, launchAttempted := false }
    | OsCall.ok true => { ret := true, resolveAttempted := false, launchAttempted := false }
    | OsCall.ok false => requestExemptionLaunch env
  else requestExemptionLaunch env

/-- OS behavior during `enableScreenWakeLock`/`disableScreenWakeLock`:
whether `currentActivity` is non-null, and whether the window-flag call on
the UI thread throws. -/
structure ScreenEnv where
  hasActivity : Bool
  uiCallThrows : Bool
deriving DecidableEq, Repr

/-- `enableScreenWakeLock(promise)` (src/unnamed/part_001, lines 162-180):
no activity resolves `false`; otherwise `addFlags(FLAG_KEEP_SCREEN_ON)`
resolves `true` unless it throws. -/
def enableScreenWakeLock (env : ScreenEnv) : Bool :=
  if env.hasActivity = false then false
  else if env.uiCallThrows then false
  else true

/-- `disableScreenWakeLock(promise)` (src/unnamed/part_001, lines 189-207):
same shape as enabling, with `clearFlags`. -/
def disableScreenWakeLock (env : ScreenEnv) : Bool :=
  if env.hasActivity = false then false
  else if env.uiCallThrows then false
  else true

/-- OS behavior for the PowerManager boolean queries (`isDeviceIdleMode`,
`isPowerSaveMode`): service availability plus the query outcome. -/
structure QueryEnv where
  powerManagerAvailable : Bool
  query : OsCall Bool
deriving DecidableEq, Repr

/-- `isDeviceIdleMode(promise)` (src/unnamed/part_001, lines 341-358):
no PowerManager or an exception resolves `false`. -/
def isDeviceIdleMode (env : QueryEnv) : Bool :=
  if env.powerManagerAvailable = false then false
  else
    match env.query with
    | OsCall.ok b => b
    | OsCall.exn => false

/-- `isPowerSaveMode(promise)` (src/unnamed/part_001, lines 382-399): same
shape as the idle query, over `powerManager.isPowerSaveMode`. -/
def isPowerSaveMode (env : QueryEnv) : Bool :=
  if env.powerManagerAvailable = false then false
  else
    match env.query with
    | OsCall.ok b => b
    | OsCall.exn => false

/-- OS behavior during `openPowerSaveModeSettings`: availability/launch
outcomes for the three tries (battery-saver settings, power-usage summary,
general settings). -/
structure PowerSettingsEnv where
  batterySaverAvailable : Bool
  batterySaverStarts : Bool
  powerUsageAvailable : Bool
  powerUsageStarts : Bool
  settingsStarts : Bool
deriving DecidableEq, Repr

/-- `openPowerSaveModeSettings(promise)` (src/unnamed/part_001, lines
409-451): try `ACTION_BATTERY_SAVER_SETTINGS` (availability check plus
launch), then `ACTION_POWER_USAGE_SUMMARY`, then `ACTION_SETTINGS`,
resolving `true` at the first success and `false` if all fail. -/
def openPowerSaveModeSettings (env : PowerSettingsEnv) : Bool :=
  if env.batterySaverAvailable && env.batterySaverStarts then true
  else if env.powerUsageAvailable && env.powerUsageStarts then true
  else if env.settingsStarts then true
  else false

/-- `openBatteryOptimizationSettings(promise)` (src/unnamed/part_001, lines
319-327) resolves exactly the boolean of
`openBatteryOptimizationSettingsInternal()` (lines 754-765), which is the
success of launching `ACTION_IGNORE_BATTERY_OPTIMIZATION_SETTINGS`. -/
def openBatteryOptimizationSettings (batteryListStarts : Bool) : Bool :=
  batteryListStarts

/-- One OEM settings activity: the (package, class) pair of the Kotlin
`ComponentName`. -/
structure SettingsTarget where
  pkg : String
  cls : String
deriving DecidableEq, Repr

/-- The `oemSettingsIntents` map (src/unnamed/part_001, lines 465-647),
embedded with its keys and each manufacturer's candidate activities in the
exact listed order. -/
def oemSettingsIntents : List (String × List SettingsTarget) :=
  [ ("xiaomi",
      [⟨"com.miui.securitycenter", "com.miui.permcenter.autostart.AutoStartManagementActivity"⟩,
       ⟨"com.miui.securitycenter", "com.miui.powercenter.PowerSettings"⟩]),
    ("huawei",
      [⟨"com.huawei.systemmanager", "com.huawei.systemmanager.startupmgr.ui.StartupNormalAppListActivity"⟩,
       ⟨"com.huawei.systemmanager", "com.huawei.systemmanager.optimize.process.ProtectActivity"⟩,
       ⟨"com.huawei.systemmanager", "com.huawei.systemmanager.appcontrol.activity.StartupAppControlActivity"⟩]),
    ("honor",
      [⟨"com.huawei.systemmanager", "com.huawei.systemmanager.startupmgr.ui.StartupNormalAppListActivity"⟩]),
    ("oppo",
      [⟨"com.coloros.safecenter", "com.coloros.safecenter.startupapp.StartupAppListActivity"⟩,
       ⟨"com.oppo.safe", "com.oppo.safe.permission.startup.StartupAppListActivity"⟩,
       ⟨"com.coloros.oppoguardelf", "com.coloros.powermanager.fuelga498.PowerUsageModelActivity"⟩]),
    ("vivo",
      [⟨"com.vivo.permissionmanager", "com.vivo.permissionmanager.activity.BgStartUpManagerActivity"⟩,
       ⟨"com.iqoo.secure", "com.iqoo.secure.ui.phoneoptimize.AddWhiteListActivity"⟩,
       ⟨"com.vivo.abe", "com.vivo.applicationbehaviorengine.ui.ExcessivePowerManagerActivity"⟩]),
    ("samsung",
      [⟨"com.samsung.android.lool", "com.samsung.android.sm.ui.battery.BatteryActivity"⟩,
       ⟨"com.samsung.android.sm", "com.samsung.android.sm.ui.battery.BatteryActivity"⟩]),
    ("oneplus",
      [⟨"com.oneplus.security", "com.oneplus.security.chainlaunch.view.ChainLaunchAppListActivity"⟩]),
    ("realme",
      [⟨"com.coloros.safecenter", "com.coloros.safecenter.startupapp.StartupAppListActivity"⟩,
       ⟨"com.oppo.safe", "com.oppo.safe.permission.startup.StartupAppListActivity"⟩]),
    ("asus",
      [⟨"com.asus.mobilemanager", "com.asus.mobilemanager.autostart.AutoStartActivity"⟩,
       ⟨"com.asus.mobilemanager", "com.asus.mobilemanager.entry.FunctionActivity"⟩]),
    ("lenovo",
      [⟨"com.lenovo.security", "com.lenovo.security.purebackground.PureBackgroundActivity"⟩]),
    ("meizu",
      [⟨"com.meizu.safe", "com.meizu.safe.powerui.PowerAppPermissionActivity"⟩]),
    ("nokia",
      [⟨"com.evenwell.powersaving.g3", "com.evenwell.powersaving.g3.exception.PowerSaverExceptionActivity"⟩]) ]

/-- The `for (intent in intents) { if (tryStartActivity(intent)) ... }` loop:
returns whether some candidate launched, together with the candidates that
were actually attempted, in order (the loop stops at the first success). -/
def tryIntents (f : SettingsTarget → Bool) : List SettingsTarget → Bool × List SettingsTarget
  | [] => (false, [])
  | t :: ts =>
      if f t then (true, [t])
      else
        let p := tryIntents f ts
        (p.1, t :: p.2)

/-- OS behavior during one `openOEMSettings` call: the raw
`Build.MANUFACTURER` string, which OEM activities launch successfully
(`tryStartActivity` outcome per target), and the outcomes of the two
fallbacks (battery-optimization list, app-details page). -/
structure OemEnv where
  manufacturer : String
  startOk : SettingsTarget → Bool
  batteryListStarts : Bool
  appDetailsStarts : Bool

/-- Result of one `openOEMSettings` call: the resolved boolean, the OEM
candidates attempted in order, and whether each generic fallback was
attempted. -/
structure OemResult where
  ret : Bool
  attempted : List SettingsTarget
  triedBatteryList : Bool
  triedAppDetails : Bool
deriving DecidableEq, Repr

/-- `openOEMSettings(promise)` from the current Android module
(src/unnamed/part_001, lines 664-701): lowercase the manufacturer, try its
mapped candidates in order, then fall back to
`openBatteryOptimizationSettingsInternal()`, then to
`openAppDetailsSettings()`, resolving `false` only when everything fails. -/
def openOEMSettings (env : OemEnv) : OemResult :=
  let m := lowercaseStr env.manufacturer
  let p :=
    match List.lookup m oemSettingsIntents with
    | some ts => tryIntents env.startOk ts
    | none => (false, [])
  if p.1 then
    { ret := true, attempted := p.2, triedBatteryList := false, triedAppDetails := false }
  else if env.batteryListStarts then
    { ret := true, attempted := p.2, triedBatteryList := true, triedAppDetails := false }
  else if env.appDetailsStarts then
    { ret := true, attempted := p.2, triedBatteryList := true, triedAppDetails := true }
  else
    { ret := false, attempted := p.2, triedBatteryList := true, triedAppDetails := true }

/-- iOS `acquireWakeLock` (src/ios/BackgroundGuardian.mm): `resolve(@(YES))`. -/
def iosAcquireWakeLock : Bool := true

/-- iOS `releaseWakeLock`: `resolve(@(YES))`. -/
def iosReleaseWakeLock : Bool := true

/-- iOS `isWakeLockHeld`: `resolve(@(NO))`. -/
def iosIsWakeLockHeld : Bool := false

/-- iOS `isIgnoringBatteryOptimizations`: `resolve(@(YES))`. -/
def iosIsIgnoringBatteryOptimizations : Bool := true

/-- iOS `requestBatteryOptimizationExemption`: `resolve(@(YES))`. -/
def iosRequestBatteryOptimizationExemption : Bool := true

/-- iOS `isPowerSaveMode`: `resolve(@(NO))`. -/
def iosIsPowerSaveMode : Bool := false

/-- iOS `openPowerSaveModeSettings`: `resolve(@(NO))`. -/
def iosOpenPowerSaveModeSettings : Bool := false

/-- iOS `openOEMSettings`: `resolve(@(NO))`. -/
def iosOpenOEMSettings : Bool := false

/-- iOS `openBatteryOptimizationSettings`: `resolve(@(NO))`. -/
def iosOpenBatteryOptimizationSettings : Bool := false

/-- iOS `isDeviceIdleMode`: `resolve(@(NO))`. -/
def iosIsDeviceIdleMode : Bool := false

/-- iOS `getDeviceManufacturer`: `resolve(@"Apple")`. -/
def iosGetDeviceManufacturer : String := "Apple"

/-- One public entry point of the Android module, with its JS-side
arguments. -/
inductive Call : Type where
  | acquireWakeLock (tag : String) (timeout : Int)
  | releaseWakeLock
  | isWakeLockHeld
  | enableScreenWakeLock
  | disableScreenWakeLock
  | isIgnoringBatteryOptimizations
  | requestBatteryOptimizationExemption
  | openBatteryOptimizationSettings
  | isDeviceIdleMode
  | isPowerSaveMode
  | openPowerSaveModeSettings
  | openOEMSettings
  | getDeviceManufacturer
deriving DecidableEq, Repr

/-- A resolved promise value: a boolean, or the nullable manufacturer
string. -/
inductive Answer : Type where
  | bool (b : Bool)
  | str (s : Option String)
deriving DecidableEq, Repr

/-- The OS environment for one dispatched call: the per-operation environment
records bundled together. -/
structure OsEnv where
  acquire : AcquireEnv
  release : ReleaseEnv
  held : HeldEnv
  screen : ScreenEnv
  battery : BatteryEnv
  exempt : ExemptEnv
  oem : OemEnv
  powerSettings : PowerSettingsEnv
  idle : QueryEnv
  powerSave : QueryEnv
  batteryListStarts : Bool
  manufacturer : ManufacturerEnv

/-- Whether a call is one of the two methods whose Kotlin bodies assign the
`wakeLock` field (the only assignments in the whole module are at lines 78,
116, 123 and 130 of src/unnamed/part_001). -/
def mutatesWakeLock : Call → Bool
  | Call.acquireWakeLock _ _ => true
  | Call.releaseWakeLock => true
  | _ => false

/-- One dispatched call of the Android module: the resolved answer together
with the module state after the call.  Methods whose bodies never assign
`wakeLock` return the state they were given. -/
def step (s : ModuleState) (c : Call) (env : OsEnv) : Answer × ModuleState :=
  match c with
  | Call.acquireWakeLock tag timeout =>
      let r := acquireWakeLock s tag timeout env.acquire
      (Answer.bool r.ret, r.state)
  | Call.releaseWakeLock =>
      let r := releaseWakeLock s env.release
      (Answer.bool r.ret, r.state)
  | Call.isWakeLockHeld => (Answer.bool (isWakeLockHeld s env.held), s)
  | Call.enableScreenWakeLock => (Answer.bool (enableScreenWakeLock env.screen), s)
  | Call.disableScreenWakeLock => (Answer.bool (disableScreenWakeLock env.screen), s)
  | Call.isIgnoringBatteryOptimizations =>
      (Answer.bool (isIgnoringBatteryOptimizations env.battery), s)
  | Call.requestBatteryOptimizationExemption =>
      (Answer.bool (requestBatteryOptimizationExemption env.exempt).ret, s)
  | Call.openBatteryOptimizationSettings =>
      (Answer.bool (openBatteryOptimizationSettings env.batteryListStarts), s)
  | Call.isDeviceIdleMode => (Answer.bool (isDeviceIdleMode env.idle), s)
  | Call.isPowerSaveMode => (Answer.bool (isPowerSaveMode env.powerSave), s)
  | Call.openPowerSaveModeSettings =>
      (Answer.bool (openPowerSaveModeSettings env.powerSettings), s)
  | Call.openOEMSettings => (Answer.bool (openOEMSettings env.oem).ret, s)
  | Call.getDeviceManufacturer => (Answer.str (getDeviceManufacturer env.manufacturer), s)

theorem acquireWakeLock_of_held (s : ModuleState) (tag : String) (timeout : Int)
    (env : AcquireEnv) (hs : s.wakeLock.isSome = true) (hh : env.isHeld = true) :
    acquireWakeLock s tag timeout env =
      { ret := true, state := s, newLockCreated := false } := by
  match s, hs with
  | { wakeLock := some h }, _ => simp [acquireWakeLock, hh]

theorem runAcquires_held (s : ModuleState) (hs : s.wakeLock.isSome = true)
    (calls : List (String × Int × AcquireEnv))
    (hheld : ∀ c ∈ calls, (c.2.2 : AcquireEnv).isHeld = true) :
    runAcquires s calls =
      (s, calls.map fun _ => { ret := true, state := s, newLockCreated := false }) := by
  induction calls with
  | nil => simp [runAcquires]
  | cons c rest ih =>
      obtain ⟨tag, timeout, env⟩ := c
      have henv : env.isHeld = true := hheld _ (List.mem_cons_self _ _)
      have hrest : ∀ c ∈ rest, (c.2.2 : AcquireEnv).isHeld = true := by
        intro c hc
        exact hheld c (List.mem_cons_of_mem _ hc)
      simp only [runAcquires, acquireWakeLock_of_held s tag timeout env hs henv,
        ih hrest, List.map_cons]

/-- C1: Acquisition is idempotent while a lock is active.  Starting with no
recorded handle, a first successful `acquireWakeLock` creates exactly one OS
wake-lock object and records the handle tagged `wakeLockTagFor tag0`; every
subsequent call whose OS environment still reports the handle as held
resolves `true`, creates no new OS object, and leaves the originally
recorded handle (tag included) unchanged. -/
theorem acquireWakeLock_idempotent (tag0 : String) (t0 : Int) (env0 : AcquireEnv)
    (calls : List (String × Int × AcquireEnv))
    (hpm : env0.powerManagerAvailable = true)
    (hnt : env0.acquireThrows = false)
    (hheld : ∀ c ∈ calls, (c.2.2 : AcquireEnv).isHeld = true) :
    (acquireWakeLock { wakeLock := none } tag0 t0 env0).ret = true ∧
    (acquireWakeLock { wakeLock := none } tag0 t0 env0).newLockCreated = true ∧
    (acquireWakeLock { wakeLock := none } tag0 t0 env0).state =
      { wakeLock := some { tag := wakeLockTagFor tag0 } } ∧
    (runAcquires (acquireWakeLock { wakeLock := none } tag0 t0 env0).state calls).1 =
      { wakeLock := some { tag := wakeLockTagFor tag0 } } ∧
    ∀ r ∈ (runAcquires (acquireWakeLock { wakeLock := none } tag0 t0 env0).state calls).2,
      r.ret = true ∧ r.newLockCreated = false := by
  have hfirst : acquireWakeLock { wakeLock := none } tag0 t0 env0 =
      { ret := true, state := { wakeLock := some { tag := wakeLockTagFor tag0 } },
        newLockCreated := true } := by
    simp [acquireWakeLock, acquireFresh, hpm, hnt]
  have hrun := runAcquires_held { wakeLock := some { tag := wakeLockTagFor tag0 } }
    (by simp) calls hheld
  refine ⟨by simp [hfirst], by simp [hfirst], by simp [hfirst], ?_, ?_⟩
  · rw [hfirst]
    simp [hrun]
  · rw [hfirst]
    simp only [hrun]
    intro r hr
    rcases List.mem_map.mp hr with ⟨c, _, hc⟩
    simp [← hc]

/-- Witness for C1 at concrete inputs: acquire with tag `Sync`, then two more
calls with different tags while the lock is still held. -/
theorem acquireWakeLock_idempotent_witness :
    (acquireWakeLock { wakeLock := none } ("Sync") 5000
      { isHeld := false, powerManagerAvailable := true, acquireThrows := false }).ret = true ∧
    (acquireWakeLock { wakeLock := none } ("Sync") 5000
      { isHeld := false, powerManagerAvailable := true, acquireThrows := false }).newLockCreated = true ∧
    (acquireWakeLock { wakeLock := none } ("Sync") 5000
      { isHeld := false, powerManagerAvailable := true, acquireThrows := false }).state =
      { wakeLock := some { tag := wakeLockTagFor ("Sync") } } ∧
    (runAcquires (acquireWakeLock { wakeLock := none } ("Sync") 5000
      { isHeld := false, powerManagerAvailable := true, acquireThrows := false }).state
      [(("Other"), 100, { isHeld := true, powerManagerAvailable := true, acquireThrows := false }),
       (("Third"), 7, { isHeld := true, powerManagerAvailable := false, acquireThrows := true })]).1 =
      { wakeLock := some { tag := wakeLockTagFor ("Sync") } } ∧
    ∀ r ∈ (runAcquires (acquireWakeLock { wakeLock := none } ("Sync") 5000
      { isHeld := false, powerManagerAvailable := true, acquireThrows := false }).state
      [(("Other"), 100, { isHeld := true, powerManagerAvailable := true, acquireThrows := false }),
       (("Third"), 7, { isHeld := true, powerManagerAvailable := false, acquireThrows := true })]).2,
      r.ret = true ∧ r.newLockCreated = false :=
  acquireWakeLock_idempotent ("Sync") 5000
    { isHeld := false, powerManagerAvailable := true, acquireThrows := false }
    [(("Other"), 100, { isHeld := true, powerManagerAvailable := true, acquireThrows := false }),
     (("Third"), 7, { isHeld := true, powerManagerAvailable := false, acquireThrows := true })]
    rfl rfl (by decide)

/-- C2: the exact case split of `releaseWakeLock`.  With no recorded handle it
resolves `true` without invoking the throwing OS release call (for every OS
environment); with a recorded handle that the OS reports no longer held it
clears the reference and resolves `true`; with a held handle it invokes the
OS release, clears the reference, and resolves `true`; if the OS release
throws it clears the reference anyway and resolves `false`.  In every case
the recorded reference is absent afterwards. -/
theorem releaseWakeLock_cases (s : ModuleState) (env : ReleaseEnv) :
    (s.wakeLock = none →
      releaseWakeLock s env = { ret := true, state := s, osReleaseCalled := false }) ∧
    (s.wakeLock.isSome = true → env.isHeld = false →
      releaseWakeLock s env =
        { ret := true, state := { wakeLock := none }, osReleaseCalled := false }) ∧
    (s.wakeLock.isSome = true → env.isHeld = true → env.releaseThrows = false →
      releaseWakeLock s env =
        { ret := true, state := { wakeLock := none }, osReleaseCalled := true }) ∧
    (s.wakeLock.isSome = true → env.isHeld = true → env.releaseThrows = true →
      releaseWakeLock s env =
        { ret := false, state := { wakeLock := none }, osReleaseCalled := true }) ∧
    (releaseWakeLock s env).state.wakeLock = none := by
  obtain ⟨w⟩ := s
  cases w with
  | none =>
      refine ⟨fun _ => rfl, ?_, ?_, ?_, rfl⟩ <;> intro h <;> simp at h
  | some h =>
      refine ⟨fun hnone => by simp at hnone, ?_, ?_, ?_, ?_⟩
      · intro _ hh
        simp [releaseWakeLock, hh]
      · intro _ hh hnt
        simp [releaseWakeLock, hh, hnt]
      · intro _ hh ht
        simp [releaseWakeLock, hh, ht]
      · by_cases hh : env.isHeld = false <;>
          by_cases ht : env.releaseThrows = true <;>
          simp [releaseWakeLock, hh, ht]

/-- Witness for C2 at a concrete input: releasing a held handle whose OS
release call throws resolves `false`, invoked the OS release, and cleared
the reference. -/
theorem releaseWakeLock_cases_witness :
    releaseWakeLock { wakeLock := some { tag := ("BackgroundGuardian:WakeLock") } }
        { isHeld := true, releaseThrows := true } =
      { ret := false, state := { wakeLock := none }, osReleaseCalled := true } :=
  (releaseWakeLock_cases { wakeLock := some { tag := ("BackgroundGuardian:WakeLock") } }
    { isHeld := true, releaseThrows := true }).2.2.2.1 (by decide) rfl rfl

/-- C7: after `releaseWakeLock` returns, whatever its boolean outcome and
whatever the OS did, an immediately following `isWakeLockHeld` reports
`false`: the reference is always cleared (or was already absent). -/
theorem isWakeLockHeld_after_release (s : ModuleState) (renv : ReleaseEnv)
    (henv : HeldEnv) :
    isWakeLockHeld (releaseWakeLock s renv).state henv = false := by
  obtain ⟨w⟩ := s
  cases w with
  | none => rfl
  | some h =>
      by_cases hh : renv.isHeld = false <;>
        by_cases ht : renv.releaseThrows = true <;>
        simp [releaseWakeLock, isWakeLockHeld, hh, ht]

/-- C4 counterexample: an OS-level failure during `acquireWakeLock` does not
clear a previously recorded stale handle.  Concretely: a stale handle is
recorded (`isHeld` reports `false`), the PowerManager service is
unavailable, so the call resolves `false` — yet a handle is still recorded
afterwards, contradicting the claim that no handle is recorded after any
failing call. -/
theorem acquireWakeLock_stale_retained :
    (acquireWakeLock { wakeLock := some { tag := ("BackgroundGuardian:WakeLock:Old") } }
      ("T") 1000
      { isHeld := false, powerManagerAvailable := false, acquireThrows := false }).ret
      = false ∧
    (acquireWakeLock { wakeLock := some { tag := ("BackgroundGuardian:WakeLock:Old") } }
      ("T") 1000
      { isHeld := false, powerManagerAvailable := false, acquireThrows := false }).state
      = { wakeLock := some { tag := ("BackgroundGuardian:WakeLock:Old") } } ∧
    ¬ (acquireWakeLock { wakeLock := some { tag := ("BackgroundGuardian:WakeLock:Old") } }
      ("T") 1000
      { isHeld := false, powerManagerAvailable := false, acquireThrows := false }).state
      = { wakeLock := none } := by
  decide

/-- C4 amended: on any OS-level failure of an actual acquisition attempt
(PowerManager unavailable, or the create/acquire call throwing — including
permission denial), `acquireWakeLock` resolves `false` and leaves the module
state exactly as it was: no new handle is recorded, and a stale handle
recorded before the failing call is retained rather than cleared. -/
theorem acquireWakeLock_failure_frame (s : ModuleState) (tag : String)
    (timeout : Int) (env : AcquireEnv)
    (hfresh : s.wakeLock = none ∨ env.isHeld = false)
    (hfail : env.powerManagerAvailable = false ∨ env.acquireThrows = true) :
    (acquireWakeLock s tag timeout env).ret = false ∧
    (acquireWakeLock s tag timeout env).state = s := by
  have hstep : acquireWakeLock s tag timeout env = acquireFresh s tag env := by
    obtain ⟨w⟩ := s
    cases w with
    | none => rfl
    | some h =>
        rcases hfresh with hnone | hheld
        · simp at hnone
        · simp [acquireWakeLock, hheld]
  rw [hstep]
  rcases hfail with hpm | ht
  · simp [acquireFresh, hpm]
  · rcases hb : env.powerManagerAvailable with _ | _
    · simp [acquireFresh, hb]
    · simp [acquireFresh, hb, ht]

/-- Witness for the amended C4 at a concrete input: the acquire call throws
(e.g. a SecurityException) while a stale handle is recorded; the call
resolves `false` and the state is unchanged. -/
theorem acquireWakeLock_failure_frame_witness :
    (acquireWakeLock { wakeLock := some { tag := ("BackgroundGuardian:WakeLock:Stale") } }
      ("Job") 60000
      { isHeld := false, powerManagerAvailable := true, acquireThrows := true }).ret
      = false ∧
    (acquireWakeLock { wakeLock := some { tag := ("BackgroundGuardian:WakeLock:Stale") } }
      ("Job") 60000
      { isHeld := false, powerManagerAvailable := true, acquireThrows := true }).state
      = { wakeLock := some { tag := ("BackgroundGuardian:WakeLock:Stale") } } :=
  acquireWakeLock_failure_frame
    { wakeLock := some { tag := ("BackgroundGuardian:WakeLock:Stale") } }
    ("Job") 60000
    { isHeld := false, powerManagerAvailable := true, acquireThrows := true }
    (Or.inr rfl) (Or.inr rfl)

theorem toNat_charOfNat (n : Nat) (h : n < 55296) : (Char.ofNat n).toNat = n := by
  have hv : n.isValidChar := Or.inl h
  simp [Char.ofNat, hv, Char.ofNatAux, Char.toNat, UInt32.toNat]

theorem isWhitespaceChar_charToLower (c : Char) :
    isWhitespaceChar (charToLower c) = isWhitespaceChar c := by
  unfold charToLower Char.toLower
  by_cases h : c.toNat ≥ 65 ∧ c.toNat ≤ 90
  · rw [if_pos h]
    obtain ⟨h1, h2⟩ := h
    have h32 : (Char.ofNat (c.toNat + 32)).toNat = c.toNat + 32 :=
      toNat_charOfNat _ (by omega)
    have hl : isWhitespaceChar (Char.ofNat (c.toNat + 32)) = false := by
      simp only [isWhitespaceChar, h32, Bool.or_eq_false_iff, decide_eq_false_iff_not]
      omega
    have hr : isWhitespaceChar c = false := by
      simp only [isWhitespaceChar, Bool.or_eq_false_iff, decide_eq_false_iff_not]
      omega
    rw [hl, hr]
  · simp [h]

theorem isBlankStr_lowercaseStr (s : String) :
    isBlankStr (lowercaseStr s) = isBlankStr s := by
  simp only [isBlankStr, lowercaseStr, List.all_map]
  induction s.data with
  | nil => rfl
  | cons c l ih => simp [List.all_cons, ih, Function.comp, isWhitespaceChar_charToLower]

theorem tryIntents_eq (f : SettingsTarget → Bool) (ts : List SettingsTarget) :
    tryIntents f ts =
      (ts.any f,
       ts.takeWhile (fun t => !f t) ++ (ts.dropWhile (fun t => !f t)).take 1) := by
  induction ts with
  | nil => rfl
  | cons t ts ih =>
      by_cases h : f t
      · simp [tryIntents, h, List.takeWhile_cons, List.dropWhile_cons]
      · simp [tryIntents, h, ih, List.takeWhile_cons, List.dropWhile_cons]

/-- C3: on an OS version predating the battery-optimization feature (API 22,
below 23) the CURRENT module's `isIgnoringBatteryOptimizations` resolves
`false` — the OS query cannot succeed there and no version branch exists —
while the earlier revision (and the KDoc both revisions carry) resolves the
documented permissive default `true`. -/
theorem isIgnoringBatteryOptimizations_api22 :
    isIgnoringBatteryOptimizations
        { sdkInt := 22, powerManagerAvailable := true, queryResult := OsCall.exn } = false ∧
    isIgnoringBatteryOptimizationsLegacy
        { sdkInt := 22, powerManagerAvailable := true, queryResult := OsCall.exn } = true := by
  decide

/-- C5: `openOEMSettings` attempts the manufacturer's candidates in their
listed order and short-circuits at the first successful launch (the
attempted list is exactly the failing prefix plus, if any, the first
success); when the profile is missing or every candidate fails it tries the
generic battery-optimization list, then the app-details surface, in that
order; `false` is resolved exactly when all of these fail. -/
theorem openOEMSettings_order (env : OemEnv) :
    let ts := (List.lookup (lowercaseStr env.manufacturer) oemSettingsIntents).getD []
    let r := openOEMSettings env
    (r.attempted =
        ts.takeWhile (fun t => !env.startOk t) ++
          (ts.dropWhile (fun t => !env.startOk t)).take 1) ∧
    (ts.any env.startOk = true →
        r.ret = true ∧ r.triedBatteryList = false ∧ r.triedAppDetails = false) ∧
    (ts.any env.startOk = false → r.triedBatteryList = true) ∧
    (ts.any env.startOk = false → env.batteryListStarts = true →
        r.ret = true ∧ r.triedAppDetails = false) ∧
    (ts.any env.startOk = false → env.batteryListStarts = false →
        r.triedAppDetails = true ∧ r.ret = env.appDetailsStarts) ∧
    (r.ret = false ↔
        ts.any env.startOk = false ∧ env.batteryListStarts = false ∧
          env.appDetailsStarts = false) := by
  cases hlook : List.lookup (lowercaseStr env.manufacturer) oemSettingsIntents with
  | none =>
      by_cases hb : env.batteryListStarts <;> by_cases ha : env.appDetailsStarts <;>
        simp [openOEMSettings, hlook, hb, ha]
  | some cand =>
      by_cases hany : cand.any env.startOk <;>
        by_cases hb : env.batteryListStarts <;>
        by_cases ha : env.appDetailsStarts <;>
        simp [openOEMSettings, hlook, tryIntents_eq, hany, hb, ha]

/-- Witness for C5 at a concrete input: on a `Xiaomi` device (mixed-case OS
string) whose first candidate fails and second launches, both candidates are
attempted in order, the call resolves `true`, and no fallback is tried. -/
theorem openOEMSettings_order_witness :
    (openOEMSettings
        { manufacturer := ("Xiaomi"),
          startOk := fun t => t.cls == ("com.miui.powercenter.PowerSettings"),
          batteryListStarts := false, appDetailsStarts := false }).ret = true ∧
    (openOEMSettings
        { manufacturer := ("Xiaomi"),
          startOk := fun t => t.cls == ("com.miui.powercenter.PowerSettings"),
          batteryListStarts := false, appDetailsStarts := false }).triedBatteryList = false ∧
    (openOEMSettings
        { manufacturer := ("Xiaomi"),
          startOk := fun t => t.cls == ("com.miui.powercenter.PowerSettings"),
          batteryListStarts := false, appDetailsStarts := false }).attempted =
      [⟨"com.miui.securitycenter", "com.miui.permcenter.autostart.AutoStartManagementActivity"⟩,
       ⟨"com.miui.securitycenter", "com.miui.powercenter.PowerSettings"⟩] := by
  obtain ⟨h1, h2, h3, h4, h5, h6⟩ := openOEMSettings_order
    { manufacturer := ("Xiaomi"),
      startOk := fun t => t.cls == ("com.miui.powercenter.PowerSettings"),
      batteryListStarts := false, appDetailsStarts := false }
  refine ⟨(h2 (by decide)).1, (h2 (by decide)).2.1, h1.trans (by decide)⟩

/-- C6: `requestBatteryOptimizationExemption` resolves `true` without
resolving or launching the dialog when the OS reports the app already
exempt; otherwise it resolves `false` when the exemption intent has no
handler or the launch throws, and resolves `true` right after the launch
attempt completes (no user-response input exists in the control flow). -/
theorem requestExemption_cases (env : ExemptEnv) :
    (env.powerManagerAvailable = true → env.statusQuery = OsCall.ok true →
        requestBatteryOptimizationExemption env =
          { ret := true, resolveAttempted := false, launchAttempted := false }) ∧
    (env.powerManagerAvailable = false ∨ env.statusQuery = OsCall.ok false →
        env.resolvable = false →
        requestBatteryOptimizationExemption env =
          { ret := false, resolveAttempted := true, launchAttempted := false }) ∧
    (env.powerManagerAvailable = false ∨ env.statusQuery = OsCall.ok false →
        env.resolvable = true → env.startThrows = true →
        requestBatteryOptimizationExemption env =
          { ret := false, resolveAttempted := true, launchAttempted := true }) ∧
    (env.powerManagerAvailable = false ∨ env.statusQuery = OsCall.ok false →
        env.resolvable = true → env.startThrows = false →
        requestBatteryOptimizationExemption env =
          { ret := true, resolveAttempted := true, launchAttempted := true }) ∧
    ((requestBatteryOptimizationExemption env).ret = true →
        (requestBatteryOptimizationExemption env).launchAttempted = true ∨
          (env.powerManagerAvailable = true ∧ env.statusQuery = OsCall.ok true)) := by
  obtain ⟨pm, sq, rs, st⟩ := env
  cases sq with
  | ok b => cases b <;> cases pm <;> cases rs <;> cases st <;> decide
  | exn => cases pm <;> cases rs <;> cases st <;> decide

/-- Witness for C6 at a concrete input: already exempt, so the call resolves
`true` without resolving or launching the dialog. -/
theorem requestExemption_cases_witness :
    requestBatteryOptimizationExemption
        { powerManagerAvailable := true, statusQuery := OsCall.ok true,
          resolvable := true, startThrows := false } =
      { ret := true, resolveAttempted := false, launchAttempted := false } :=
  (requestExemption_cases
    { powerManagerAvailable := true, statusQuery := OsCall.ok true,
      resolvable := true, startThrows := false }).1 rfl rfl

/-- C8: every iOS operation resolves its fixed documented default with no OS
interaction: the wake-lock and exemption operations succeed trivially, the
status and settings operations report `false`, and the manufacturer is the
fixed vendor constant `Apple`. -/
theorem ios_noop_defaults :
    iosAcquireWakeLock = true ∧ iosReleaseWakeLock = true ∧
    iosIsIgnoringBatteryOptimizations = true ∧
    iosRequestBatteryOptimizationExemption = true ∧
    iosIsWakeLockHeld = false ∧ iosIsPowerSaveMode = false ∧
    iosIsDeviceIdleMode = false ∧ iosOpenPowerSaveModeSettings = false ∧
    iosOpenOEMSettings = false ∧ iosOpenBatteryOptimizationSettings = false ∧
    iosGetDeviceManufacturer = ("Apple") := by
  decide

/-- C9: every public operation other than `acquireWakeLock` and
`releaseWakeLock` leaves the recorded wake-lock handle exactly as it was,
whatever the OS environment (success or failure). -/
theorem wakeLock_frame (s : ModuleState) (c : Call) (env : OsEnv)
    (h : mutatesWakeLock c = false) :
    (step s c env).2 = s := by
  cases c <;> first | rfl | simp [mutatesWakeLock] at h

/-- Witness for C9 at a concrete input: `getDeviceManufacturer` leaves a
recorded handle untouched. -/
theorem wakeLock_frame_witness :
    (step { wakeLock := some { tag := ("BackgroundGuardian:WakeLock:Sync") } }
        Call.getDeviceManufacturer
        { acquire := { isHeld := false, powerManagerAvailable := true, acquireThrows := false },
          release := { isHeld := false, releaseThrows := false },
          held := { isHeld := false, queryThrows := false },
          screen := { hasActivity := false, uiCallThrows := false },
          battery := { sdkInt := 33, powerManagerAvailable := true,
                       queryResult := OsCall.ok false },
          exempt := { powerManagerAvailable := true, statusQuery := OsCall.ok false,
                      resolvable := true, startThrows := false },
          oem := { manufacturer := ("samsung"), startOk := fun _ => false,
                   batteryListStarts := false, appDetailsStarts := false },
          powerSettings := { batterySaverAvailable := false, batterySaverStarts := false,
                             powerUsageAvailable := false, powerUsageStarts := false,
                             settingsStarts := false },
          idle := { powerManagerAvailable := true, query := OsCall.ok false },
          powerSave := { powerManagerAvailable := true, query := OsCall.ok false },
          batteryListStarts := false,
          manufacturer := { value := some ("Samsung"), readThrows := false } }).2 =
      { wakeLock := some { tag := ("BackgroundGuardian:WakeLock:Sync") } } :=
  wakeLock_frame _ _ _ rfl

/-- C10: `getDeviceManufacturer` on Android never resolves an empty or blank
string: a throwing read, a null value, or a blank value resolve null, and
every non-null result is the lowercased, still non-blank manufacturer. -/
theorem getDeviceManufacturer_cases (env : ManufacturerEnv) :
    (env.readThrows = true → getDeviceManufacturer env = none) ∧
    (env.value = none → getDeviceManufacturer env = none) ∧
    (∀ m, env.value = some m → isBlankStr m = true →
        getDeviceManufacturer env = none) ∧
    (∀ m, env.value = some m → isBlankStr m = false → env.readThrows = false →
        getDeviceManufacturer env = some (lowercaseStr m)) ∧
    (∀ r, getDeviceManufacturer env = some r → isBlankStr r = false ∧ r ≠ ("")) := by
  obtain ⟨v, rt⟩ := env
  cases rt with
  | true => simp [getDeviceManufacturer]
  | false =>
      cases v with
      | none => simp [getDeviceManufacturer]
      | some m =>
          by_cases hb : isBlankStr m = true
          · simp [getDeviceManufacturer, hb]
          · have hb' : isBlankStr m = false := by
              cases hbm : isBlankStr m
              · rfl
              · exact absurd hbm hb
            refine ⟨by intro h; simp at h, by intro h; simp at h, ?_, ?_, ?_⟩
            · intro m2 hm2 hbl
              cases hm2
              exact absurd hbl hb
            · intro m2 hm2 _ _
              cases hm2
              simp [getDeviceManufacturer, hb']
            · intro r hr
              simp only [getDeviceManufacturer, if_neg (by simp : ¬(false = true)),
                hb'] at hr
              simp only [Bool.false_eq_true, if_false, Option.some.injEq] at hr
              subst hr
              constructor
              · rw [isBlankStr_lowercaseStr]
                exact hb'
              · intro hempty
                have hdata : m.data.map charToLower = [] := by
                  have := congrArg String.data hempty
                  simpa [lowercaseStr] using this
                have hnil : m.data = [] := List.map_eq_nil_iff.mp hdata
                have : isBlankStr m = true := by simp [isBlankStr, hnil]
                exact absurd this hb

/-- Witness for C10 at a concrete input: a mixed-case manufacturer resolves
its lowercase form, which is non-blank. -/
theorem getDeviceManufacturer_cases_witness :
    getDeviceManufacturer { value := some ("Xiaomi"), readThrows := false } =
      some (lowercaseStr ("Xiaomi")) ∧
    isBlankStr (lowercaseStr ("Xiaomi")) = false := by
  have h := getDeviceManufacturer_cases { value := some ("Xiaomi"), readThrows := false }
  have hres := h.2.2.2.1 ("Xiaomi") rfl (by decide) rfl
  exact ⟨hres, (h.2.2.2.2 (lowercaseStr ("Xiaomi")) hres).1⟩
